import Mathlib

/-!
Shallow embedding of the slack-integration repository: the standard
envelope and error taxonomy (src/integrations/common/base-integration,
types), the entity transformer and request schemas
(src/integrations/slack/types), the Slack adapter operations
(src/integrations/slack/service), the integration registry
(src/integrations/common/index), and the generic retry helper
(IntegrationUtils.retry).  External I/O (the Nango proxy and
triggerAction) is modelled as an oracle argument: an `Except String r`
value describing what the single external call would do if issued, and
each operation run records how many external calls were issued.
-/

namespace SlackIntegration

/-- JS truthiness for an optional string: `undefined` and `""` are falsy. -/
def jsTruthyStr : Option String → Bool
  | some s => !(s == "")
  | none => false

/-- JS `a || b` where `a` is an optional string and `b` a plain string
(used for `profile?.x || y` chains in the transformer). -/
def jsOr (a : Option String) (b : String) : String :=
  match a with
  | some s => if s == "" then b else s
  | none => b

/-- JS `a || b` where both operands are optional strings. -/
def jsOrOpt (a b : Option String) : Option String :=
  match a with
  | some s => if s == "" then b else some s
  | none => b

/-- JS truthiness of an optional boolean flag (`undefined` is falsy). -/
def jsTruthyB : Option Bool → Bool
  | some b => b
  | none => false

/-! ## Error taxonomy (src common types: IntegrationErrorCodes) -/

namespace IntegrationErrorCodes

def AUTHENTICATION_FAILED : String := "AUTHENTICATION_FAILED"

def TOKEN_EXPIRED : String := "TOKEN_EXPIRED"

def INVALID_CREDENTIALS : String := "INVALID_CREDENTIALS"

def INSUFFICIENT_PERMISSIONS : String := "INSUFFICIENT_PERMISSIONS"

def API_ERROR : String := "API_ERROR"

def RATE_LIMITED : String := "RATE_LIMITED"

def SERVICE_UNAVAILABLE : String := "SERVICE_UNAVAILABLE"

def INVALID_REQUEST : String := "INVALID_REQUEST"

def MISSING_REQUIRED_FIELD : String := "MISSING_REQUIRED_FIELD"

def INVALID_FORMAT : String := "INVALID_FORMAT"

def RESOURCE_NOT_FOUND : String := "RESOURCE_NOT_FOUND"

def RESOURCE_CONFLICT : String := "RESOURCE_CONFLICT"

def CONFIGURATION_ERROR : String := "CONFIGURATION_ERROR"

def INTEGRATION_DISABLED : String := "INTEGRATION_DISABLED"

end IntegrationErrorCodes

/-- A detail value stored in the `details` bag of an error: either a
plain string or a possibly-undefined string (JS fields may be
`undefined`). -/
inductive DetailValue where
  | str (s : String)
  | optStr (s : Option String)
  deriving DecidableEq, Repr

/-- IntegrationError (src common base-integration): code, message,
details bag, and the stack attached only in development mode. -/
structure IntegrationError where
  code : String
  message : String
  details : Option (List (String × DetailValue))
  stack : Option String
  deriving DecidableEq, Repr

/-- Standard envelope IntegrationResponse<T> with the meta block
flattened (timestamp, integration id, version). -/
structure IntegrationResponse (T : Type) where
  success : Bool
  data : Option T
  error : Option IntegrationError
  metaTimestamp : String
  metaIntegration : String
  metaVersion : String
  deriving Repr

/-- Ambient service state: the wall-clock string used for meta
timestamps, the development-mode stack string (none in production), and
the stored configuration (none before a successful `initialize`). -/
structure SlackConfig where
  nangoConnectionId : String
  botToken : Option String
  appToken : Option String
  signingSecret : Option String
  defaultChannel : Option String
  deriving DecidableEq, Repr

structure ServiceCtx where
  now : String
  devStack : Option String
  config : Option SlackConfig
  deriving Repr

/-- BaseIntegrationClass.createResponse: success is the absence of an
error, data is dropped whenever an error is supplied. -/
def createResponse {T : Type} (ctx : ServiceCtx)
    (data : Option T) (error : Option IntegrationError) :
    IntegrationResponse T :=
  { success := error.isNone
    data := if error.isSome then none else data
    error := error
    metaTimestamp := ctx.now
    metaIntegration := "slack"
    metaVersion := "1.0.0" }

/-- BaseIntegrationClass.createError. -/
def createError (ctx : ServiceCtx) (code message : String)
    (details : Option (List (String × DetailValue))) : IntegrationError :=
  { code := code, message := message, details := details
    stack := ctx.devStack }

/-! ## Slack entities and the entity transformer (slack/types) -/

/-- The profile sub-object of a Slack user (only the fields the
transformer reads). -/
structure SlackProfile where
  real_name : Option String
  display_name : Option String
  email : Option String
  image_192 : Option String
  status_text : Option String
  status_emoji : Option String
  deriving DecidableEq, Repr

/-- Slack user object from the API (fields the transformer reads). -/
structure SlackUser where
  id : String
  name : String
  real_name : Option String
  email : Option String
  image_192 : Option String
  is_bot : Option Bool
  is_app_user : Option Bool
  presence : Option String
  profile : Option SlackProfile
  deriving DecidableEq, Repr

/-- StandardUser status enum (online/offline/away/busy). -/
inductive UserStatus where
  | online
  | offline
  | away
  | busy
  deriving DecidableEq, Repr

/-- StandardUser with the metadata bag flattened into its four keys. -/
structure StandardUser where
  id : String
  name : String
  email : Option String
  avatar : Option String
  status : UserStatus
  isBot : Option Bool
  isAppUser : Option Bool
  statusText : Option String
  statusEmoji : Option String
  deriving DecidableEq, Repr

/-- SlackTransformer.toStandardUser: pick the most specific provider
field first (`profile?.x || fallback` chains), derive status from
presence. -/
def toStandardUser (u : SlackUser) : StandardUser :=
  { id := u.id
    name := jsOr (u.profile.bind SlackProfile.display_name)
      (jsOr u.real_name u.name)
    email := jsOrOpt (u.profile.bind SlackProfile.email) u.email
    avatar := jsOrOpt (u.profile.bind SlackProfile.image_192) u.image_192
    status := if u.presence == some "active" then .online else .offline
    isBot := u.is_bot
    isAppUser := u.is_app_user
    statusText := u.profile.bind SlackProfile.status_text
    statusEmoji := u.profile.bind SlackProfile.status_emoji }

/-- Reinterpret a StandardUser structurally as a SlackUser argument,
the way JS would when `toStandardUser` is applied to its own output:
the shared fields (id, name, email) carry over, every SlackUser field
the standard shape does not have (real_name, image_192, is_bot,
is_app_user, presence, profile) is `undefined`. -/
def standardAsSlackUser (s : StandardUser) : SlackUser :=
  { id := s.id
    name := s.name
    real_name := none
    email := s.email
    image_192 := none
    is_bot := none
    is_app_user := none
    presence := none
    profile := none }

/-- Purpose/topic sub-object of a Slack channel. -/
structure SlackTopic where
  value : String
  creator : String
  last_set : Nat
  deriving DecidableEq, Repr

/-- Slack channel object from the API (fields the transformer reads). -/
structure SlackChannel where
  id : String
  name : String
  is_channel : Option Bool
  is_group : Option Bool
  is_im : Option Bool
  is_mpim : Option Bool
  is_private : Option Bool
  is_archived : Option Bool
  is_general : Option Bool
  is_shared : Option Bool
  is_member : Option Bool
  purpose : Option SlackTopic
  topic : Option SlackTopic
  num_members : Option Nat
  deriving DecidableEq, Repr

/-- StandardChannel type enum (public/private/direct/group). -/
inductive ChannelType where
  | publicChannel
  | privateChannel
  | direct
  | group
  deriving DecidableEq, Repr

/-- StandardChannel with the metadata bag flattened into its keys. -/
structure StandardChannel where
  id : String
  name : String
  description : Option String
  type : ChannelType
  memberCount : Option Nat
  isArchived : Option Bool
  isGeneral : Option Bool
  isShared : Option Bool
  isMember : Option Bool
  deriving DecidableEq, Repr

/-- SlackTransformer.toStandardChannel: the type is derived with the
fixed precedence is_im, then is_mpim or is_group, then is_private,
defaulting to public. -/
def toStandardChannel (c : SlackChannel) : StandardChannel :=
  { id := c.id
    name := c.name
    description := jsOrOpt (c.purpose.map SlackTopic.value)
      (c.topic.map SlackTopic.value)
    type :=
      if jsTruthyB c.is_im then .direct
      else if jsTruthyB c.is_mpim || jsTruthyB c.is_group then .group
      else if jsTruthyB c.is_private then .privateChannel
      else .publicChannel
    memberCount := c.num_members
    isArchived := c.is_archived
    isGeneral := c.is_general
    isShared := c.is_shared
    isMember := c.is_member }

/-! ## Request schemas (slack/types) and zod-style validation.
`IntegrationUtils.validateInput` turns a failed parse into a thrown
`Error` whose message aggregates every issue message, joined by a
comma; we model it as `Except String` with that message. -/

/-- JS template interpolation of a possibly-undefined string. -/
def jsTemplate : Option String → String
  | some s => s
  | none => "undefined"

def joinIssues (errs : List String) : String :=
  "Validation failed: " ++ String.intercalate ", " errs

/-- SendMessageSchema input shape. -/
structure SendMessageRequest where
  channel : String
  text : String
  thread_ts : Option String
  reply_broadcast : Option Bool
  username : Option String
  icon_emoji : Option String
  icon_url : Option String
  attachments : Option (List String)
  blocks : Option (List String)
  deriving DecidableEq, Repr

/-- SendMessageSchema: channel and text are required non-empty; every
other field is optional and unconstrained.  Note the schema puts NO
upper bound on text length. -/
def validateSendMessage (r : SendMessageRequest) :
    Except String SendMessageRequest :=
  let errs :=
    (if r.channel.length < 1 then ["Channel is required"] else []) ++
    (if r.text.length < 1 then ["Message text is required"] else [])
  if errs.isEmpty then .ok r else .error (joinIssues errs)

/-- GetUsersSchema input shape (limit optional, validated then
defaulted to 100). -/
structure GetUsersRequest where
  cursor : Option String
  limit : Option Int
  include_locale : Option Bool
  deriving DecidableEq, Repr

structure GetUsersValidated where
  cursor : Option String
  limit : Int
  include_locale : Option Bool
  deriving DecidableEq, Repr

def limitIssues (limit : Option Int) : List String :=
  match limit with
  | none => []
  | some l =>
      (if l < 1 then ["Number must be greater than or equal to 1"]
        else []) ++
      (if l > 1000 then ["Number must be less than or equal to 1000"]
        else [])

def validateGetUsers (r : GetUsersRequest) :
    Except String GetUsersValidated :=
  if (limitIssues r.limit).isEmpty then
    .ok { cursor := r.cursor, limit := r.limit.getD 100
          include_locale := r.include_locale }
  else .error (joinIssues (limitIssues r.limit))

/-- GetChannelsSchema input shape. -/
structure GetChannelsRequest where
  cursor : Option String
  limit : Option Int
  exclude_archived : Option Bool
  types : Option String
  deriving DecidableEq, Repr

structure GetChannelsValidated where
  cursor : Option String
  limit : Int
  exclude_archived : Bool
  types : String
  deriving DecidableEq, Repr

def validateGetChannels (r : GetChannelsRequest) :
    Except String GetChannelsValidated :=
  if (limitIssues r.limit).isEmpty then
    .ok { cursor := r.cursor, limit := r.limit.getD 100
          exclude_archived := r.exclude_archived.getD true
          types := r.types.getD "public_channel,private_channel" }
  else .error (joinIssues (limitIssues r.limit))

/-- GetUserInfoSchema input shape. -/
structure GetUserInfoRequest where
  user : String
  include_locale : Option Bool
  deriving DecidableEq, Repr

def validateGetUserInfo (r : GetUserInfoRequest) :
    Except String GetUserInfoRequest :=
  let errs := if r.user.length < 1 then ["User ID is required"] else []
  if errs.isEmpty then .ok r else .error (joinIssues errs)

/-! ## The Slack adapter operations (slack/service).
Each operation takes the current service context, the request, and an
oracle describing what the one external call (a Nango triggerAction for
sendMessage, a proxy call otherwise) would do if issued; the run
records the number of external calls actually issued. -/

structure OpRun (T : Type) where
  response : IntegrationResponse T
  externalCalls : Nat

/-- Provider response of the send-message triggerAction. -/
structure SendActionResponse where
  ok : Bool
  error : Option String
  ts : Option String
  raw_json : Option String
  deriving DecidableEq, Repr

/-- Provider response of /auth.test. -/
structure AuthTestResponse where
  ok : Bool
  deriving DecidableEq, Repr

/-- Provider response of /users.info. -/
structure UsersInfoResponse where
  ok : Bool
  user : Option SlackUser
  error : Option String
  deriving DecidableEq, Repr

structure ResponseMetadata where
  next_cursor : Option String
  deriving DecidableEq, Repr

/-- Provider response of /users.list. -/
structure UsersListResponse where
  ok : Bool
  members : Option (List SlackUser)
  response_metadata : Option ResponseMetadata
  error : Option String
  deriving DecidableEq, Repr

/-- Provider response of /conversations.list. -/
structure ChannelsListResponse where
  ok : Bool
  channels : Option (List SlackChannel)
  response_metadata : Option ResponseMetadata
  error : Option String
  deriving DecidableEq, Repr

/-- The switch over provider error codes in sendMessage, mapping each
recognized code to its remediation hint and anything else (including a
missing code) to the generic hint. -/
def suggestionFor (e : Option String) : String :=
  if e == some "not_in_channel" then
    "You are not a member of this channel. Please join the channel first."
  else if e == some "channel_not_found" then
    "The specified channel does not exist or you do not have access to it."
  else if e == some "access_denied" then
    "You do not have permission to post messages to this channel. Check your channel permissions."
  else if e == some "account_inactive" then
    "Your Slack account or workspace is inactive."
  else if e == some "token_expired" then
    "Your authentication token has expired. Please reconnect the integration."
  else if e == some "restricted_action" then
    "Message posting is restricted in this channel. Contact your workspace admin."
  else
    "Please check the channel ID and ensure you have access to post messages."

structure SendMessageData where
  messageId : String
  timestamp : String
  deriving DecidableEq, Repr

/-- SlackService.sendMessage.  Validation errors and a missing config
throw before the triggerAction call and are caught by the outer catch,
which wraps them as API_ERROR; a provider rejection (ok=false) builds
an API_ERROR envelope with the suggestion details; a provider success
uses `response.ts || two empty-string fallbacks`. -/
def sendMessage (ctx : ServiceCtx) (request : SendMessageRequest)
    (trigger : Except String SendActionResponse) : OpRun SendMessageData :=
  match validateSendMessage request with
  | .error m =>
      ⟨createResponse ctx none (some (createError ctx
        IntegrationErrorCodes.API_ERROR
        ("Failed to send message: " ++ m) none)), 0⟩
  | .ok _validated =>
      match ctx.config with
      | none =>
          ⟨createResponse ctx none (some (createError ctx
            IntegrationErrorCodes.API_ERROR
            "Failed to send message: Integration not initialized" none)), 0⟩
      | some _cfg =>
          match trigger with
          | .error m =>
              ⟨createResponse ctx none (some (createError ctx
                IntegrationErrorCodes.API_ERROR
                ("Failed to send message: " ++ m) none)), 1⟩
          | .ok resp =>
              if resp.ok then
                ⟨createResponse ctx
                  (some { messageId := jsOr resp.ts ""
                          timestamp := jsOr resp.ts "" }) none, 1⟩
              else
                let suggestions := suggestionFor resp.error
                let baseMsg := "Failed to send message: " ++
                  jsOr resp.error "Unknown error"
                let errorMessage :=
                  if suggestions == "" then baseMsg
                  else baseMsg ++ " " ++ suggestions
                ⟨createResponse ctx none (some (createError ctx
                  IntegrationErrorCodes.API_ERROR errorMessage
                  (some [("slackError", .optStr resp.error),
                         ("suggestions", .str suggestions),
                         ("errorType", .optStr resp.error),
                         ("rawResponse", .optStr resp.raw_json)]))), 1⟩

/-- SlackService.getUserInfo: an unsuccessful provider response or a
missing user payload yields RESOURCE_NOT_FOUND. -/
def getUserInfo (ctx : ServiceCtx) (request : GetUserInfoRequest)
    (call : Except String UsersInfoResponse) : OpRun StandardUser :=
  match validateGetUserInfo request with
  | .error m =>
      ⟨createResponse ctx none (some (createError ctx
        IntegrationErrorCodes.API_ERROR
        ("Failed to get user info: " ++ m) none)), 0⟩
  | .ok _validated =>
      match ctx.config with
      | none =>
          ⟨createResponse ctx none (some (createError ctx
            IntegrationErrorCodes.API_ERROR
            "Failed to get user info: Integration not initialized" none)), 0⟩
      | some _cfg =>
          match call with
          | .error m =>
              ⟨createResponse ctx none (some (createError ctx
                IntegrationErrorCodes.API_ERROR
                ("Failed to get user info: " ++ m) none)), 1⟩
          | .ok resp =>
              match resp.ok, resp.user with
              | true, some u =>
                  ⟨createResponse ctx (some (toStandardUser u)) none, 1⟩
              | _, _ =>
                  ⟨createResponse ctx none (some (createError ctx
                    IntegrationErrorCodes.RESOURCE_NOT_FOUND
                    ("User not found: " ++ jsTemplate resp.error)
                    (some [("slackError", .optStr resp.error)]))), 1⟩

structure GetUsersData where
  users : List StandardUser
  nextCursor : Option String
  deriving DecidableEq, Repr

/-- SlackService.getUsers. -/
def getUsers (ctx : ServiceCtx) (request : GetUsersRequest)
    (call : Except String UsersListResponse) : OpRun GetUsersData :=
  match validateGetUsers request with
  | .error m =>
      ⟨createResponse ctx none (some (createError ctx
        IntegrationErrorCodes.API_ERROR
        ("Failed to fetch users: " ++ m) none)), 0⟩
  | .ok _validated =>
      match ctx.config with
      | none =>
          ⟨createResponse ctx none (some (createError ctx
            IntegrationErrorCodes.API_ERROR
            "Failed to fetch users: Integration not initialized" none)), 0⟩
      | some _cfg =>
          match call with
          | .error m =>
              ⟨createResponse ctx none (some (createError ctx
                IntegrationErrorCodes.API_ERROR
                ("Failed to fetch users: " ++ m) none)), 1⟩
          | .ok resp =>
              match resp.ok, resp.members with
              | true, some members =>
                  ⟨createResponse ctx
                    (some { users := members.map toStandardUser
                            nextCursor := resp.response_metadata.bind
                              ResponseMetadata.next_cursor }) none, 1⟩
              | _, _ =>
                  ⟨createResponse ctx none (some (createError ctx
                    IntegrationErrorCodes.API_ERROR
                    ("Failed to fetch users: " ++ jsTemplate resp.error)
                    (some [("slackError", .optStr resp.error)]))), 1⟩

structure GetChannelsData where
  channels : List StandardChannel
  nextCursor : Option String
  deriving DecidableEq, Repr

/-- SlackService.getChannels. -/
def getChannels (ctx : ServiceCtx) (request : GetChannelsRequest)
    (call : Except String ChannelsListResponse) : OpRun GetChannelsData :=
  match validateGetChannels request with
  | .error m =>
      ⟨createResponse ctx none (some (createError ctx
        IntegrationErrorCodes.API_ERROR
        ("Failed to fetch channels: " ++ m) none)), 0⟩
  | .ok _validated =>
      match ctx.config with
      | none =>
          ⟨createResponse ctx none (some (createError ctx
            IntegrationErrorCodes.API_ERROR
            "Failed to fetch channels: Integration not initialized" none)), 0⟩
      | some _cfg =>
          match call with
          | .error m =>
              ⟨createResponse ctx none (some (createError ctx
                IntegrationErrorCodes.API_ERROR
                ("Failed to fetch channels: " ++ m) none)), 1⟩
          | .ok resp =>
              match resp.ok, resp.channels with
              | true, some channels =>
                  ⟨createResponse ctx
                    (some { channels := channels.map toStandardChannel
                            nextCursor := resp.response_metadata.bind
                              ResponseMetadata.next_cursor }) none, 1⟩
              | _, _ =>
                  ⟨createResponse ctx none (some (createError ctx
                    IntegrationErrorCodes.API_ERROR
                    ("Failed to fetch channels: " ++ jsTemplate resp.error)
                    (some [("slackError", .optStr resp.error)]))), 1⟩

/-! ## Health check and lifecycle (slack/service) -/

inductive HealthStatus where
  | healthy
  | degraded
  | unhealthy
  deriving DecidableEq, Repr

structure HealthChecks where
  authentication : Bool
  apiAccess : Bool
  permissions : Bool
  deriving DecidableEq, Repr

/-- IntegrationHealthCheck, with the details bag flattened into the
two keys the service actually writes (connectionId on the normal path,
error on the caught-exception path). -/
structure IntegrationHealthCheck where
  status : HealthStatus
  timestamp : String
  checks : HealthChecks
  detailConnectionId : Option String
  detailError : Option String
  deriving DecidableEq, Repr

/-- SlackService.testConnection.  `auth` is the outcome of the
/auth.test proxy call, `perm` the outcome of the /conversations.list
probe.  The whole body sits in a try/catch, so the function is total:
a thrown auth call (or a missing config) is caught and reported as an
unhealthy check, and a thrown permission probe is caught by the inner
catch and recorded as permissions=false. -/
def testConnection (ctx : ServiceCtx) (auth : Except String AuthTestResponse)
    (perm : Except String Unit) : IntegrationHealthCheck :=
  match ctx.config with
  | none =>
      { status := .unhealthy
        timestamp := ctx.now
        checks := ⟨false, false, false⟩
        detailConnectionId := none
        detailError := some "Integration not initialized" }
  | some cfg =>
      match auth with
      | .error m =>
          { status := .unhealthy
            timestamp := ctx.now
            checks := ⟨false, false, false⟩
            detailConnectionId := none
            detailError := some m }
      | .ok resp =>
          let checks : HealthChecks :=
            if resp.ok then
              { authentication := true
                apiAccess := true
                permissions := match perm with
                  | .ok _ => true
                  | .error _ => false }
            else ⟨false, false, false⟩
          let allHealthy :=
            checks.authentication && checks.apiAccess && checks.permissions
          { status :=
              if allHealthy then .healthy
              else if checks.authentication then .degraded
              else .unhealthy
            timestamp := ctx.now
            checks := checks
            detailConnectionId := some cfg.nangoConnectionId
            detailError := none }

/-- SlackConfigSchema: nangoConnectionId required non-empty, the four
other fields optional. -/
def validateSlackConfig (c : SlackConfig) : Except String SlackConfig :=
  let errs := if c.nangoConnectionId.length < 1 then
    ["Nango connection ID is required"] else []
  if errs.isEmpty then .ok c else .error (joinIssues errs)

/-- SlackService.initialize (named svcInit here): validates the config,
stores it, then awaits testConnection.  Since testConnection catches
every failure internally and returns a health check instead of
throwing, the probe result is discarded and only a config validation
failure can make this reject. -/
def svcInit (ctx : ServiceCtx) (config : SlackConfig)
    (auth : Except String AuthTestResponse) (perm : Except String Unit) :
    Except String ServiceCtx :=
  match validateSlackConfig config with
  | .error m => .error ("Failed to initialize Slack integration: " ++ m)
  | .ok cfg =>
      let ctx2 := { ctx with config := some cfg }
      let _probe := testConnection ctx2 auth perm
      .ok ctx2

/-! ## Integration registry (common/index).  The JS Map is modelled as
an association list in insertion order; register checks `has` before
`set`, so keys stay unique. -/

structure AdapterRef where
  id : String
  enabled : Bool
  deriving DecidableEq, Repr

structure IntegrationRegistry where
  integrations : List (String × AdapterRef)
  deriving DecidableEq, Repr

namespace IntegrationRegistry

def hasId (r : IntegrationRegistry) (id : String) : Bool :=
  r.integrations.any (fun p => p.1 == id)

/-- register: throws when the id is already present, otherwise appends
(Map.set on a fresh key appends in insertion order). -/
def register (r : IntegrationRegistry) (a : AdapterRef) :
    Except String IntegrationRegistry :=
  if hasId r a.id then
    .error ("Integration " ++ a.id ++ " is already registered")
  else
    .ok { integrations := r.integrations ++ [(a.id, a)] }

/-- get: Map.get, absent key gives undefined. -/
def get (r : IntegrationRegistry) (id : String) : Option AdapterRef :=
  (r.integrations.find? (fun p => p.1 == id)).map Prod.snd

def getAll (r : IntegrationRegistry) : List AdapterRef :=
  r.integrations.map Prod.snd

def getEnabled (r : IntegrationRegistry) : List AdapterRef :=
  (getAll r).filter AdapterRef.enabled

/-- unregister: Map.delete returns whether the key was present and
removes it. -/
def unregister (r : IntegrationRegistry) (id : String) :
    Bool × IntegrationRegistry :=
  (hasId r id,
    { integrations := r.integrations.filter (fun p => !(p.1 == id)) })

end IntegrationRegistry

/-! ## Generic retry helper (IntegrationUtils.retry).  The async
operation is an oracle from the 1-based attempt number to that
invocation's outcome; the run records the result, the number of
invocations, and the sleeps performed between attempts. -/

/-- Result of a retry run: the returned value, the error re-raised
after the final attempt, or the `throw lastError!` of a run whose loop
never executed (maxAttempts < 1), which throws with no recorded error. -/
inductive RetryOutcome (E A : Type) where
  | value (a : A)
  | raised (e : E)
  | raisedUndefined
  deriving DecidableEq, Repr

structure RetryRun (E A : Type) where
  result : RetryOutcome E A
  invocations : Nat
  sleeps : List Nat
  deriving DecidableEq, Repr

/-- The loop body of IntegrationUtils.retry, at the given 1-based
attempt with the given number of remaining attempts: an attempt that
fails with attempts left sleeps `min (baseDelay * backoffFactor ^
(attempt - 1)) maxDelay` and continues; a failure on the final attempt
breaks out and is re-raised. -/
def retryAux {E A : Type} (fn : Nat → Except E A)
    (baseDelay maxDelay backoffFactor : Nat) :
    Nat → Nat → RetryRun E A
  | _, 0 => ⟨.raisedUndefined, 0, []⟩
  | attempt, 1 =>
      match fn attempt with
      | .ok a => ⟨.value a, 1, []⟩
      | .error e => ⟨.raised e, 1, []⟩
  | attempt, n + 2 =>
      match fn attempt with
      | .ok a => ⟨.value a, 1, []⟩
      | .error _ =>
          let d := min (baseDelay * backoffFactor ^ (attempt - 1)) maxDelay
          let rest := retryAux fn baseDelay maxDelay backoffFactor
            (attempt + 1) (n + 1)
          ⟨rest.result, rest.invocations + 1, d :: rest.sleeps⟩

/-- IntegrationUtils.retry with explicit options. -/
def retry {E A : Type} (fn : Nat → Except E A)
    (maxAttempts baseDelay maxDelay backoffFactor : Nat) : RetryRun E A :=
  retryAux fn baseDelay maxDelay backoffFactor 1 maxAttempts

/-- An envelope populates exactly one of data and error: data present
and error absent on success, error present and data absent on failure. -/
def exactlyOneB {T : Type} (r : IntegrationResponse T) : Bool :=
  (r.success && r.data.isSome && r.error.isNone) ||
  (!r.success && r.error.isSome && r.data.isNone)

/-- Whether an Except value is a success. -/
def isOkB {ε α : Type} : Except ε α → Bool
  | .ok _ => true
  | .error _ => false

/-! ## Theorems -/

/-- C6: toStandardChannel derives the type with the fixed precedence
direct > group > private > public: is_im forces direct regardless of
the other flags; otherwise is_mpim or is_group forces group (even when
is_private is set); otherwise is_private gives private; with no flag
set the type is public. -/
theorem c6_channel_type_precedence (c : SlackChannel) :
    ((toStandardChannel c).type = ChannelType.direct ↔
      jsTruthyB c.is_im = true) ∧
    ((toStandardChannel c).type = ChannelType.group ↔
      (jsTruthyB c.is_im = false ∧
        (jsTruthyB c.is_mpim = true ∨ jsTruthyB c.is_group = true))) ∧
    ((toStandardChannel c).type = ChannelType.privateChannel ↔
      (jsTruthyB c.is_im = false ∧ jsTruthyB c.is_mpim = false ∧
        jsTruthyB c.is_group = false ∧ jsTruthyB c.is_private = true)) ∧
    ((toStandardChannel c).type = ChannelType.publicChannel ↔
      (jsTruthyB c.is_im = false ∧ jsTruthyB c.is_mpim = false ∧
        jsTruthyB c.is_group = false ∧ jsTruthyB c.is_private = false)) := by
  simp only [toStandardChannel]
  cases h1 : jsTruthyB c.is_im <;>
    cases h2 : jsTruthyB c.is_mpim <;>
      cases h3 : jsTruthyB c.is_group <;>
        cases h4 : jsTruthyB c.is_private <;>
          simp

/-- C7 counterexample: toStandardUser is NOT idempotent on the status
field.  For a user with presence = "active" the first application
yields status online, but the standard shape carries no presence
field, so re-applying the transform to that output yields offline. -/
theorem c7_counterexample :
    (toStandardUser
      (⟨"U1", "alice", none, none, none, none, none, some "active",
        none⟩ : SlackUser)).status = UserStatus.online ∧
    (toStandardUser (standardAsSlackUser (toStandardUser
      (⟨"U1", "alice", none, none, none, none, none, some "active",
        none⟩ : SlackUser)))).status = UserStatus.offline := by
  constructor <;> rfl

/-- C7 amended: toStandardUser re-derives the same id and the same
name when applied to its own output, but the re-derived status is
always offline (the standard shape has no presence field), so the
status is preserved exactly when the first application already gave
offline, i.e. when presence was not "active". -/
theorem c7_idempotent_amended (u : SlackUser) :
    (toStandardUser (standardAsSlackUser (toStandardUser u))).id =
      (toStandardUser u).id ∧
    (toStandardUser (standardAsSlackUser (toStandardUser u))).name =
      (toStandardUser u).name ∧
    (toStandardUser (standardAsSlackUser (toStandardUser u))).status =
      UserStatus.offline ∧
    ((toStandardUser (standardAsSlackUser (toStandardUser u))).status =
        (toStandardUser u).status ↔
      (toStandardUser u).status = UserStatus.offline) := by
  refine ⟨rfl, rfl, rfl, ?_⟩
  simp only [toStandardUser, standardAsSlackUser]
  constructor
  · intro h
    exact h.symm
  · intro h
    exact h.symm

/-- C10: on every sendMessage run whose envelope carries data (the
provider success path), messageId and timestamp are the same string:
both are `response.ts || two occurrences of the empty-string fallback`. -/
theorem c10_messageId_eq_timestamp (ctx : ServiceCtx)
    (req : SendMessageRequest) (trig : Except String SendActionResponse) :
    ((sendMessage ctx req trig).response.data.all
      (fun d => d.messageId == d.timestamp)) = true := by
  simp only [sendMessage]
  split
  · simp [createResponse]
  · split
    · simp [createResponse]
    · split
      · simp [createResponse]
      · split
        · simp [createResponse]
        · simp [createResponse]

/-- C1: every envelope produced by the four public adapter operations
populates exactly one of data and error — data present and error
absent when success is true, error present and data absent when
success is false — for every context, request and external-call
outcome. -/
theorem c1_envelope_exactly_one (ctx : ServiceCtx)
    (r1 : SendMessageRequest) (t1 : Except String SendActionResponse)
    (r2 : GetUserInfoRequest) (o2 : Except String UsersInfoResponse)
    (r3 : GetUsersRequest) (o3 : Except String UsersListResponse)
    (r4 : GetChannelsRequest) (o4 : Except String ChannelsListResponse) :
    exactlyOneB (sendMessage ctx r1 t1).response = true ∧
    exactlyOneB (getUserInfo ctx r2 o2).response = true ∧
    exactlyOneB (getUsers ctx r3 o3).response = true ∧
    exactlyOneB (getChannels ctx r4 o4).response = true := by
  refine ⟨?_, ?_, ?_, ?_⟩
  · simp only [sendMessage]
    repeat' split
    all_goals simp [exactlyOneB, createResponse]
  · simp only [getUserInfo]
    repeat' split
    all_goals simp [exactlyOneB, createResponse]
  · simp only [getUsers]
    repeat' split
    all_goals simp [exactlyOneB, createResponse]
  · simp only [getChannels]
    repeat' split
    all_goals simp [exactlyOneB, createResponse]

/-- C4: the health status returned by testConnection is healthy iff
all three returned checks are true, degraded iff authentication is
true but apiAccess or permissions is false, and unhealthy iff
authentication is false; and (last two conjuncts) a failing
permission probe under a successful auth call is caught and recorded
as permissions = false with a degraded status rather than a raise —
the function is total, so testConnection never throws. -/
theorem c4_health_status (ctx : ServiceCtx)
    (auth : Except String AuthTestResponse) (perm : Except String Unit)
    (cfg : SlackConfig) (e : String) :
    ((testConnection ctx auth perm).status = HealthStatus.healthy ↔
      ((testConnection ctx auth perm).checks.authentication = true ∧
        (testConnection ctx auth perm).checks.apiAccess = true ∧
        (testConnection ctx auth perm).checks.permissions = true)) ∧
    ((testConnection ctx auth perm).status = HealthStatus.degraded ↔
      ((testConnection ctx auth perm).checks.authentication = true ∧
        ((testConnection ctx auth perm).checks.apiAccess = false ∨
          (testConnection ctx auth perm).checks.permissions = false))) ∧
    ((testConnection ctx auth perm).status = HealthStatus.unhealthy ↔
      (testConnection ctx auth perm).checks.authentication = false) ∧
    (testConnection { ctx with config := some cfg }
      (.ok ⟨true⟩) (.error e)).checks.permissions = false ∧
    (testConnection { ctx with config := some cfg }
      (.ok ⟨true⟩) (.error e)).status = HealthStatus.degraded := by
  refine ⟨?_, ?_, ?_, rfl, rfl⟩ <;>
    (simp only [testConnection]
     split
     · simp
     · split
       · simp
       · rename_i resp
         cases hok : resp.ok <;> cases perm <;> simp [hok])

namespace IntegrationRegistry

/-- C5: register throws exactly when the identifier is already present
and otherwise appends without touching existing entries; get on an
unregistered identifier is undefined (and get is a total function, so
it never throws); unregister reports whether an entry was removed and
is idempotent — removing an id leaves a registry from which removing
the same id again reports false and changes nothing. -/
theorem c5_registry (r : IntegrationRegistry) (a : AdapterRef)
    (id : String) :
    (hasId r a.id = true →
      register r a =
        .error ("Integration " ++ a.id ++ " is already registered")) ∧
    (hasId r a.id = false →
      register r a = .ok ⟨r.integrations ++ [(a.id, a)]⟩) ∧
    (hasId r id = false → get r id = none) ∧
    ((unregister r id).1 = hasId r id) ∧
    (unregister (unregister r id).2 id = (false, (unregister r id).2)) := by
  refine ⟨?_, ?_, ?_, rfl, ?_⟩
  · intro h
    simp [register, h]
  · intro h
    simp [register, h]
  · intro h
    simp only [hasId, List.any_eq_false] at h
    simp only [get, Option.map_eq_none', List.find?_eq_none]
    exact h
  · have h1 : (unregister (unregister r id).2 id).1 = false := by
      simp only [unregister, hasId, List.any_eq_false]
      intro p hp
      have := List.mem_filter.mp hp
      simp_all
    have h2 : (unregister (unregister r id).2 id).2 = (unregister r id).2 := by
      simp only [unregister]
      congr 1
      apply List.filter_eq_self.mpr
      intro p hp
      exact (List.mem_filter.mp hp).2
    exact Prod.ext_iff.mpr ⟨h1, h2⟩

end IntegrationRegistry

/-- C5 witness: at the concrete registry states, a duplicate register
throws, and get on an unregistered id is absent. -/
theorem c5_registry_witness :
    IntegrationRegistry.register ⟨[("slack", ⟨"slack", true⟩)]⟩
        ⟨"slack", true⟩ =
      .error ("Integration " ++ "slack" ++ " is already registered") ∧
    IntegrationRegistry.get ⟨[]⟩ "slack" = none := by
  constructor
  · exact (IntegrationRegistry.c5_registry ⟨[("slack", ⟨"slack", true⟩)]⟩
      ⟨"slack", true⟩ "slack").1 (by decide)
  · exact (IntegrationRegistry.c5_registry ⟨[]⟩
      ⟨"slack", true⟩ "slack").2.2.1 (by decide)

/-- A send request validates iff channel and text are both non-empty
(the schema has no upper length bound). -/
theorem validateSendMessage_ok_iff (r : SendMessageRequest) :
    isOkB (validateSendMessage r) = true ↔
      1 ≤ r.channel.length ∧ 1 ≤ r.text.length := by
  unfold validateSendMessage
  by_cases h1 : r.channel.length < 1 <;> by_cases h2 : r.text.length < 1 <;>
    simp [h1, h2, isOkB]
  all_goals omega

theorem validateSendMessage_ok (r : SendMessageRequest)
    (hc : 1 ≤ r.channel.length) (ht : 1 ≤ r.text.length) :
    validateSendMessage r = .ok r := by
  unfold validateSendMessage
  have h1 : ¬ r.channel.length < 1 := by omega
  have h2 : ¬ r.text.length < 1 := by omega
  simp [h1, h2]

theorem validateSendMessage_err (r : SendMessageRequest)
    (h : r.text.length = 0) :
    ∃ m, validateSendMessage r = .error m := by
  unfold validateSendMessage
  by_cases h1 : r.channel.length < 1 <;> simp [h1, h]

theorem limitIssues_ne_nil (l : Int) (hl : l < 1 ∨ 1000 < l) :
    (limitIssues (some l)).isEmpty = false := by
  unfold limitIssues
  rcases hl with hl | hl
  · by_cases h2 : l > 1000 <;> simp [hl, h2]
  · by_cases h2 : l < 1 <;> simp [hl, h2]

theorem validateGetUsers_err (r : GetUsersRequest) (l : Int)
    (hlim : r.limit = some l) (hl : l < 1 ∨ 1000 < l) :
    validateGetUsers r = .error (joinIssues (limitIssues r.limit)) := by
  unfold validateGetUsers
  rw [hlim, limitIssues_ne_nil l hl]
  simp

theorem validateGetChannels_err (r : GetChannelsRequest) (l : Int)
    (hlim : r.limit = some l) (hl : l < 1 ∨ 1000 < l) :
    validateGetChannels r = .error (joinIssues (limitIssues r.limit)) := by
  unfold validateGetChannels
  rw [hlim, limitIssues_ne_nil l hl]
  simp

/-- C2 counterexample: sendMessage with an empty message text (a
malformed input per the claim) produces success=false and no external
call, but the error code is API_ERROR — the catch-all wraps the thrown
validation error — which is not one of the three Validation-category
codes the claim requires. -/
theorem c2_counterexample :
    (sendMessage ⟨"t0", none, some ⟨"conn", none, none, none, none⟩⟩
      ⟨"#general", "", none, none, none, none, none, none, none⟩
      (.ok ⟨true, none, none, none⟩)).response.success = false ∧
    (sendMessage ⟨"t0", none, some ⟨"conn", none, none, none, none⟩⟩
      ⟨"#general", "", none, none, none, none, none, none, none⟩
      (.ok ⟨true, none, none, none⟩)).externalCalls = 0 ∧
    (sendMessage ⟨"t0", none, some ⟨"conn", none, none, none, none⟩⟩
      ⟨"#general", "", none, none, none, none, none, none, none⟩
      (.ok ⟨true, none, none, none⟩)).response.error.map
        IntegrationError.code = some IntegrationErrorCodes.API_ERROR ∧
    (IntegrationErrorCodes.API_ERROR ≠
        IntegrationErrorCodes.INVALID_REQUEST ∧
      IntegrationErrorCodes.API_ERROR ≠
        IntegrationErrorCodes.MISSING_REQUIRED_FIELD ∧
      IntegrationErrorCodes.API_ERROR ≠
        IntegrationErrorCodes.INVALID_FORMAT) := by
  exact ⟨by decide, by decide, by decide, by decide, by decide, by decide⟩

/-- C2 amended: a schema-rejected input (empty message text, or a
pagination limit outside [1,1000]) makes the operation return
success=false with NO external call, but the error code is API_ERROR —
the validation failure is re-thrown and wrapped by the operation's
catch-all — not a Validation-category code; and a message text longer
than 4000 characters is not malformed for sendMessage at all:
SendMessageSchema has no upper bound, so the request validates and the
external call is issued. -/
theorem c2_validation_behavior
    (ctx : ServiceCtx) (cfg : SlackConfig)
    (req0 : SendMessageRequest) (h0 : req0.text.length = 0)
    (t0 : Except String SendActionResponse)
    (l : Int) (hl : l < 1 ∨ 1000 < l)
    (ru : GetUsersRequest) (rc : GetChannelsRequest)
    (cu : Except String UsersListResponse)
    (cc : Except String ChannelsListResponse)
    (reqL : SendMessageRequest) (hL : 4000 < reqL.text.length)
    (hLc : 1 ≤ reqL.channel.length)
    (tL : Except String SendActionResponse) :
    ((sendMessage ctx req0 t0).response.success = false ∧
      (sendMessage ctx req0 t0).response.error.map IntegrationError.code =
        some IntegrationErrorCodes.API_ERROR ∧
      (sendMessage ctx req0 t0).externalCalls = 0) ∧
    ((getUsers ctx { ru with limit := some l } cu).response.success =
        false ∧
      (getUsers ctx { ru with limit := some l } cu).response.error.map
        IntegrationError.code = some IntegrationErrorCodes.API_ERROR ∧
      (getUsers ctx { ru with limit := some l } cu).externalCalls = 0) ∧
    ((getChannels ctx { rc with limit := some l } cc).response.success =
        false ∧
      (getChannels ctx { rc with limit := some l } cc).response.error.map
        IntegrationError.code = some IntegrationErrorCodes.API_ERROR ∧
      (getChannels ctx { rc with limit := some l } cc).externalCalls = 0) ∧
    (sendMessage { ctx with config := some cfg } reqL tL).externalCalls =
      1 := by
  obtain ⟨m, hm⟩ := validateSendMessage_err req0 h0
  have hu := validateGetUsers_err { ru with limit := some l } l rfl hl
  have hc := validateGetChannels_err { rc with limit := some l } l rfl hl
  have hv := validateSendMessage_ok reqL hLc (by omega)
  refine ⟨⟨?_, ?_, ?_⟩, ⟨?_, ?_, ?_⟩, ⟨?_, ?_, ?_⟩, ?_⟩
  · simp [sendMessage, hm, createResponse]
  · simp [sendMessage, hm, createResponse, createError]
  · simp [sendMessage, hm]
  · simp [getUsers, hu, createResponse]
  · simp [getUsers, hu, createResponse, createError]
  · simp [getUsers, hu]
  · simp [getChannels, hc, createResponse]
  · simp [getChannels, hc, createResponse, createError]
  · simp [getChannels, hc]
  · cases tL with
    | error m2 => simp [sendMessage, hv]
    | ok resp => cases hok : resp.ok <;> simp [sendMessage, hv, hok]

/-- C2 amended witness at concrete inputs: empty text and limit 0 fail
with zero external calls, a 4001-character text proceeds to the
external call. -/
theorem c2_validation_witness :
    (sendMessage ⟨"t0", none, some ⟨"conn", none, none, none, none⟩⟩
      ⟨"#general", "", none, none, none, none, none, none, none⟩
      (.ok ⟨true, none, none, none⟩)).externalCalls = 0 ∧
    (getUsers ⟨"t0", none, some ⟨"conn", none, none, none, none⟩⟩
      ⟨none, some 0, none⟩ (.ok ⟨true, some [], none, none⟩)).externalCalls =
      0 ∧
    (sendMessage ⟨"t0", none, some ⟨"conn", none, none, none, none⟩⟩
      ⟨"#general", String.mk (List.replicate 4001 'a'), none, none, none,
        none, none, none, none⟩
      (.ok ⟨true, none, none, none⟩)).externalCalls = 1 := by
  have H := c2_validation_behavior
    ⟨"t0", none, some ⟨"conn", none, none, none, none⟩⟩
    ⟨"conn", none, none, none, none⟩
    ⟨"#general", "", none, none, none, none, none, none, none⟩
    (by decide)
    (.ok ⟨true, none, none, none⟩)
    0 (by omega)
    ⟨none, none, none⟩ ⟨none, none, none, none⟩
    (.ok ⟨true, some [], none, none⟩)
    (.ok ⟨true, some [], none, none⟩)
    ⟨"#general", String.mk (List.replicate 4001 'a'), none, none, none,
      none, none, none, none⟩
    (by
      show 4000 < (String.mk (List.replicate 4001 'a')).length
      rw [String.length, List.length_replicate]
      omega)
    (by decide)
    (.ok ⟨true, none, none, none⟩)
  exact ⟨H.1.2.2, H.2.1.2.2, H.2.2.2⟩

/-- C3 counterexample: with a schema-valid configuration whose
connectivity probe fails (the auth probe throws), initialize completes
successfully — it does not reject — while the probe itself reports
unhealthy; so a failing probe does not make initialization fail
loudly. -/
theorem c3_counterexample :
    svcInit ⟨"t0", none, none⟩ ⟨"conn", none, none, none, none⟩
        (.error "Authentication failed - token may be expired")
        (.error "no perms") =
      .ok ⟨"t0", none, some ⟨"conn", none, none, none, none⟩⟩ ∧
    (testConnection ⟨"t0", none, some ⟨"conn", none, none, none, none⟩⟩
        (.error "Authentication failed - token may be expired")
        (.error "no perms")).status = HealthStatus.unhealthy := by
  constructor <;> rfl

/-- C3 amended: for every configuration passing schema validation,
initialize completes successfully whatever the connectivity probe
does: the probe is performed, reports unhealthy on failure instead of
raising (testConnection never throws), and its result is discarded, so
probe failure is deferred to later calls rather than failing
initialization; initialize rejects only on config validation failure. -/
theorem c3_init_ignores_probe (ctx : ServiceCtx) (cfg : SlackConfig)
    (auth auth' : Except String AuthTestResponse)
    (perm perm' : Except String Unit) (m : String)
    (h : 1 ≤ cfg.nangoConnectionId.length) :
    svcInit ctx cfg auth perm = .ok { ctx with config := some cfg } ∧
    svcInit ctx cfg auth perm = svcInit ctx cfg auth' perm' ∧
    (testConnection { ctx with config := some cfg }
      (.error m) perm).status = HealthStatus.unhealthy := by
  have h1 : ¬ cfg.nangoConnectionId.length < 1 := by omega
  have hv : validateSlackConfig cfg = .ok cfg := by
    unfold validateSlackConfig
    simp [h1]
  refine ⟨?_, ?_, rfl⟩ <;> simp [svcInit, hv]

/-- C3 amended witness: a concrete valid config with a failing probe
still initializes successfully. -/
theorem c3_init_ignores_probe_witness :
    svcInit ⟨"t0", none, none⟩ ⟨"conn", none, none, none, none⟩
        (.error "down") (.error "down") =
      .ok ⟨"t0", none, some ⟨"conn", none, none, none, none⟩⟩ := by
  exact (c3_init_ignores_probe ⟨"t0", none, none⟩
    ⟨"conn", none, none, none, none⟩ (.error "down") (.error "down")
    (.error "down") (.error "down") "down" (by decide)).1

/-- C9: on a provider-level rejection (ok=false) of a validated send,
the envelope has success=false, data absent, error code API_ERROR, and
error.details carries a suggestions entry computed by the fixed lookup
over the provider error code; the six recognized codes map to their
specific remediation hints and any other code (here an arbitrary
unrecognized one) gets the single generic hint. -/
theorem c9_rejection_suggestions
    (ctx : ServiceCtx) (cfg : SlackConfig) (req : SendMessageRequest)
    (e ts raw : Option String) (e' : Option String)
    (hch : 1 ≤ req.channel.length) (htx : 1 ≤ req.text.length)
    (he' : e' ∉ [some "not_in_channel", some "channel_not_found",
      some "access_denied", some "account_inactive",
      some "token_expired", some "restricted_action"]) :
    ((sendMessage { ctx with config := some cfg } req
        (.ok ⟨false, e, ts, raw⟩)).response.success = false ∧
      (sendMessage { ctx with config := some cfg } req
        (.ok ⟨false, e, ts, raw⟩)).response.data = none ∧
      (sendMessage { ctx with config := some cfg } req
        (.ok ⟨false, e, ts, raw⟩)).response.error.map
          IntegrationError.code = some IntegrationErrorCodes.API_ERROR ∧
      (sendMessage { ctx with config := some cfg } req
        (.ok ⟨false, e, ts, raw⟩)).response.error.bind
          IntegrationError.details =
        some [("slackError", DetailValue.optStr e),
          ("suggestions", DetailValue.str (suggestionFor e)),
          ("errorType", DetailValue.optStr e),
          ("rawResponse", DetailValue.optStr raw)]) ∧
    suggestionFor (some "not_in_channel") =
      "You are not a member of this channel. Please join the channel first." ∧
    suggestionFor (some "channel_not_found") =
      "The specified channel does not exist or you do not have access to it." ∧
    suggestionFor (some "access_denied") =
      "You do not have permission to post messages to this channel. Check your channel permissions." ∧
    suggestionFor (some "account_inactive") =
      "Your Slack account or workspace is inactive." ∧
    suggestionFor (some "token_expired") =
      "Your authentication token has expired. Please reconnect the integration." ∧
    suggestionFor (some "restricted_action") =
      "Message posting is restricted in this channel. Contact your workspace admin." ∧
    suggestionFor e' =
      "Please check the channel ID and ensure you have access to post messages." := by
  have hv := validateSendMessage_ok req hch htx
  simp only [List.mem_cons, List.not_mem_nil, or_false, not_or] at he'
  obtain ⟨n1, n2, n3, n4, n5, n6⟩ := he'
  refine ⟨⟨?_, ?_, ?_, ?_⟩, by decide, by decide, by decide, by decide,
    by decide, by decide, ?_⟩
  · simp [sendMessage, hv, createResponse]
  · simp [sendMessage, hv, createResponse]
  · simp [sendMessage, hv, createResponse, createError]
  · simp [sendMessage, hv, createResponse, createError]
  · have b1 : (e' == some "not_in_channel") = false := by
      simpa using n1
    have b2 : (e' == some "channel_not_found") = false := by
      simpa using n2
    have b3 : (e' == some "access_denied") = false := by
      simpa using n3
    have b4 : (e' == some "account_inactive") = false := by
      simpa using n4
    have b5 : (e' == some "token_expired") = false := by
      simpa using n5
    have b6 : (e' == some "restricted_action") = false := by
      simpa using n6
    simp [suggestionFor, b1, b2, b3, b4, b5, b6]

/-- C9 witness: the spec scenario — a validated send against a
provider response {ok:false, error:"not_in_channel"} yields
error.code=API_ERROR, data absent, and the channel-membership
remediation hint in error.details.suggestions; an unrecognized code
gets the generic hint. -/
theorem c9_rejection_suggestions_witness :
    ((sendMessage ⟨"t0", none, some ⟨"conn", none, none, none, none⟩⟩
        ⟨"#general", "hi", none, none, none, none, none, none, none⟩
        (.ok ⟨false, some "not_in_channel", none, none⟩)).response.data =
      none) ∧
    ((sendMessage ⟨"t0", none, some ⟨"conn", none, none, none, none⟩⟩
        ⟨"#general", "hi", none, none, none, none, none, none, none⟩
        (.ok ⟨false, some "not_in_channel", none, none⟩)).response.error.map
          IntegrationError.code = some IntegrationErrorCodes.API_ERROR) ∧
    suggestionFor (some "not_in_channel") =
      "You are not a member of this channel. Please join the channel first." ∧
    suggestionFor (some "weird_code") =
      "Please check the channel ID and ensure you have access to post messages." := by
  have H := c9_rejection_suggestions
    ⟨"t0", none, none⟩ ⟨"conn", none, none, none, none⟩
    ⟨"#general", "hi", none, none, none, none, none, none, none⟩
    (some "not_in_channel") none none (some "weird_code")
    (by decide) (by decide) (by decide)
  exact ⟨H.1.2.1, H.1.2.2.1, H.2.1, H.2.2.2.2.2.2.2⟩

theorem retryAux_inv_le {E A : Type} (fn : Nat → Except E A)
    (b m f : Nat) :
    ∀ r a, (retryAux fn b m f a r).invocations ≤ r := by
  intro r
  induction r using Nat.strong_induction_on with
  | _ r ih =>
    intro a
    match r with
    | 0 => simp [retryAux]
    | 1 => cases h : fn a <;> simp [retryAux, h]
    | n + 2 =>
      cases h : fn a with
      | ok v => simp [retryAux, h]
      | error e =>
        have := ih (n + 1) (by omega) (a + 1)
        simp only [retryAux, h]
        omega

theorem retryAux_success {E A : Type} (fn : Nat → Except E A)
    (b m f : Nat) :
    ∀ r a k v, k < r →
      (∀ j, j < k → isOkB (fn (a + j)) = false) →
      fn (a + k) = .ok v →
      retryAux fn b m f a r =
        ⟨.value v, k + 1,
          (List.range k).map (fun i => min (b * f ^ (a + i - 1)) m)⟩ := by
  intro r
  induction r using Nat.strong_induction_on with
  | _ r ih =>
    intro a k v hk hfail hok
    match r, hk with
    | n + 1, _ =>
      match k with
      | 0 =>
        simp only [Nat.add_zero] at hok
        match n with
        | 0 => simp [retryAux, hok]
        | n' + 1 => simp [retryAux, hok]
      | k' + 1 =>
        have hfa : isOkB (fn a) = false := by
          have := hfail 0 (by omega)
          simpa using this
        have herr : ∃ e, fn a = .error e := by
          cases hfn : fn a with
          | ok v0 => rw [hfn] at hfa; simp [isOkB] at hfa
          | error e => exact ⟨e, rfl⟩
        obtain ⟨e, he⟩ := herr
        match n with
        | 0 => omega
        | n' + 1 =>
          have hrec := ih (n' + 1) (by omega) (a + 1) k' v (by omega)
            (by
              intro j hj
              have := hfail (j + 1) (by omega)
              simpa [Nat.add_assoc, Nat.add_comm 1 j] using this)
            (by
              have : a + 1 + k' = a + (k' + 1) := by omega
              rw [this]
              exact hok)
          simp only [retryAux, he, hrec]
          rw [RetryRun.mk.injEq]
          refine ⟨rfl, rfl, ?_⟩
          rw [List.range_succ_eq_map]
          simp only [List.map_cons, List.map_map]
          rw [List.cons.injEq]
          refine ⟨by simp, ?_⟩
          apply List.map_congr_left
          intro i _
          simp only [Function.comp_apply, Nat.succ_eq_add_one]
          have hx : a + 1 + i - 1 = a + (i + 1) - 1 := by omega
          rw [hx]

theorem retryAux_failure {E A : Type} (fn : Nat → Except E A)
    (b m f : Nat) :
    ∀ r a, 1 ≤ r →
      (∀ j, j < r → isOkB (fn (a + j)) = false) →
      ∃ e, fn (a + r - 1) = .error e ∧
        retryAux fn b m f a r =
          ⟨.raised e, r,
            (List.range (r - 1)).map
              (fun i => min (b * f ^ (a + i - 1)) m)⟩ := by
  intro r
  induction r using Nat.strong_induction_on with
  | _ r ih =>
    intro a hr hfail
    have hfa : isOkB (fn a) = false := by
      have := hfail 0 (by omega)
      simpa using this
    have herr : ∃ e, fn a = .error e := by
      cases hfn : fn a with
      | ok v0 => rw [hfn] at hfa; simp [isOkB] at hfa
      | error e => exact ⟨e, rfl⟩
    obtain ⟨e, he⟩ := herr
    match r, hr with
    | 1, _ =>
      refine ⟨e, by simpa using he, ?_⟩
      simp [retryAux, he]
    | n + 2, _ =>
      obtain ⟨e2, he2, hrec⟩ := ih (n + 1) (by omega) (a + 1) (by omega)
        (by
          intro j hj
          have := hfail (j + 1) (by omega)
          simpa [Nat.add_assoc, Nat.add_comm 1 j] using this)
      refine ⟨e2, ?_, ?_⟩
      · have : a + 1 + (n + 1) - 1 = a + (n + 2) - 1 := by omega
        rw [← this]
        exact he2
      · simp only [retryAux, he, hrec]
        rw [show n + 1 - 1 = n from rfl, show n + 2 - 1 = n + 1 from rfl,
          RetryRun.mk.injEq]
        refine ⟨rfl, rfl, ?_⟩
        rw [List.range_succ_eq_map]
        simp only [List.map_cons, List.map_map]
        rw [List.cons.injEq]
        refine ⟨by simp, ?_⟩
        apply List.map_congr_left
        intro i _
        simp only [Function.comp_apply, Nat.succ_eq_add_one]
        have hx : a + 1 + i - 1 = a + (i + 1) - 1 := by omega
        rw [hx]

/-- C8: the retry helper invokes the operation at most maxAttempts
times; if the first success is at attempt k ≤ maxAttempts it returns
that value after exactly k invocations, having slept
min(baseDelay * backoffFactor^(attempt-1), maxDelay) after each failed
attempt 1..k-1; and if every attempt fails it re-raises the error of
the final (maxAttempts-th) attempt only, after exactly maxAttempts
invocations. -/
theorem c8_retry {E A : Type} (fn : Nat → Except E A)
    (maxAttempts baseDelay maxDelay backoffFactor : Nat)
    (hM : 1 ≤ maxAttempts) :
    ((retry fn maxAttempts baseDelay maxDelay backoffFactor).invocations ≤
      maxAttempts) ∧
    (∀ k v, 1 ≤ k → k ≤ maxAttempts →
      (∀ i, 1 ≤ i → i < k → isOkB (fn i) = false) →
      fn k = .ok v →
      retry fn maxAttempts baseDelay maxDelay backoffFactor =
        ⟨.value v, k,
          (List.range (k - 1)).map
            (fun i => min (baseDelay * backoffFactor ^ i) maxDelay)⟩) ∧
    ((∀ i, 1 ≤ i → i ≤ maxAttempts → isOkB (fn i) = false) →
      ∃ e, fn maxAttempts = .error e ∧
        retry fn maxAttempts baseDelay maxDelay backoffFactor =
          ⟨.raised e, maxAttempts,
            (List.range (maxAttempts - 1)).map
              (fun i => min (baseDelay * backoffFactor ^ i) maxDelay)⟩) := by
  refine ⟨retryAux_inv_le fn baseDelay maxDelay backoffFactor maxAttempts 1,
    ?_, ?_⟩
  · intro k v hk1 hkM hfail hok
    have h := retryAux_success fn baseDelay maxDelay backoffFactor
      maxAttempts 1 (k - 1) v (by omega)
      (by
        intro j hj
        exact hfail (1 + j) (by omega) (by omega))
      (by rw [show 1 + (k - 1) = k from by omega]; exact hok)
    rw [retry, h, RetryRun.mk.injEq]
    refine ⟨rfl, by omega, ?_⟩
    apply List.map_congr_left
    intro i _
    have hx : 1 + i - 1 = i := by omega
    rw [hx]
  · intro hfail
    obtain ⟨e, he, h⟩ := retryAux_failure fn baseDelay maxDelay
      backoffFactor maxAttempts 1 hM
      (by
        intro j hj
        exact hfail (1 + j) (by omega) (by omega))
    refine ⟨e, ?_, ?_⟩
    · rw [show 1 + maxAttempts - 1 = maxAttempts from by omega] at he
      exact he
    · rw [retry, h, RetryRun.mk.injEq]
      refine ⟨rfl, rfl, ?_⟩
      apply List.map_congr_left
      intro i _
      have hx : 1 + i - 1 = i := by omega
      rw [hx]

/-- C8 witness (the spec scenario): an operation that fails on
attempts 1 and 2 and succeeds on attempt 3, run with maxAttempts=3,
baseDelay=5, maxDelay=8, backoffFactor=2, returns the success value
after exactly 3 invocations having slept min(5*2^0,8)=5 then
min(5*2^1,8)=8. -/
theorem c8_retry_witness :
    retry (fun i => if i ≤ 2 then Except.error "boom"
        else Except.ok (42 : Nat)) 3 5 8 2 =
      ⟨.value 42, 3, [5, 8]⟩ := by
  have h := (c8_retry (fun i => if i ≤ 2 then Except.error "boom"
      else Except.ok (42 : Nat)) 3 5 8 2 (by omega)).2.1 3 42
    (by omega) (by omega)
    (by
      intro i h1 h2
      interval_cases i <;> decide)
    (by simp)
  rw [h]
  decide

end SlackIntegration
